import Mathlib

/-!
Shallow embedding of the geometric reasoning and procedural
visual-conditioning pipeline of the `prosumerworks-interior` AI service
(`apps/ai-service/app/agents/architect_agent.py` and
`apps/ai-service/app/agents/designer_agent.py`), together with theorems
settling the specification claims about it.

Modelling conventions:
- Python numbers (ints and floats) are modelled as `ℚ`; the arithmetic the
  embedded functions perform (min, max, sum, subtraction, division,
  comparisons) is exact on the values the claims concern.
- A Python dict holding optional keys is a structure with `Option` fields;
  `d.get(k, v)` becomes `(field).getD v`.
- Dict truthiness (`if pos:`, `x or {}`) is modelled by wrapping the dict in
  `Option`: `none` stands for a falsy (empty or absent-and-defaulted-empty)
  dict, `some` for a non-empty dict.
- `str.lower()` / `str.upper()` are per-character maps (`pyLower`/`pyUpper`),
  `"needle" in haystack` is substring containment (`strContains`), and
  `sep.join(parts)` is `py_join`.
- Python's built-in `hash` on strings is salted per process
  (`PYTHONHASHSEED`); it is therefore a *parameter* `py_hash : String → ℤ`
  of the embedded seed computation, not a fixed function.
-/

namespace Interior

/-- Python `str.lower()`: per-character lowercasing (identity on Korean). -/
def pyLower (s : String) : String := ⟨s.data.map Char.toLower⟩

/-- Python `str.upper()`: per-character uppercasing (identity on Korean). -/
def pyUpper (s : String) : String := ⟨s.data.map Char.toUpper⟩

/-- Python `needle in haystack` on strings: substring containment. -/
def strContains (haystack needle : String) : Bool :=
  decide (needle.data <:+: haystack.data)

/-- Python `sep.join(parts)`. -/
def py_join (sep : String) : List String → String
  | [] => ""
  | [s] => s
  | s :: rest => s ++ sep ++ py_join sep rest

/-- Python `min` over a list (source only applies it to non-empty lists;
the `[]` case is an arbitrary total-function default). -/
def listMin : List ℚ → ℚ
  | [] => 0
  | x :: xs => xs.foldl min x

/-- Python `max` over a list (source only applies it to non-empty lists). -/
def listMax : List ℚ → ℚ
  | [] => 0
  | x :: xs => xs.foldl max x

/-- Python `int(q)`: truncation toward zero. -/
def trunc_to_int (q : ℚ) : ℤ := if q < 0 then -((-q).floor) else q.floor

/-- Python `str(...)` of a number (the exact float rendering of CPython is
not modelled; no claim depends on the digits produced). -/
def py_num_str (q : ℚ) : String := toString q

/-- Python `str(...)` of an `Optional[float]`: `None` renders as "None". -/
def py_opt_num_str : Option ℚ → String
  | none => "None"
  | some q => py_num_str q

/-- Python `str(...)` of an int. -/
def py_int_str (n : ℤ) : String := toString n

/-- A `position` / `coordinates` dict `{x, y, width, height}` whose keys may
individually be absent (`schemas.StructuralElement.position : dict`). -/
structure Pos where
  x : Option ℚ := none
  y : Option ℚ := none
  width : Option ℚ := none
  height : Option ℚ := none
deriving DecidableEq

/-- `pos.get(key, default) if pos else default`: read a coordinate out of a
possibly-falsy position dict. -/
def pos_get (p : Option Pos) (sel : Pos → Option ℚ) (dflt : ℚ) : ℚ :=
  match p with
  | none => dflt
  | some q => (sel q).getD dflt

/-- `StructuralElementType` enum from `app/models/schemas.py`. -/
inductive StructuralElementType where
  | load_bearing_wall
  | non_load_bearing_wall
  | pillar
  | beam
  | window
  | door
  | plumbing
  | electrical
  | hvac
deriving DecidableEq

/-- The `.value` string of each `StructuralElementType` member. -/
def element_type_val : StructuralElementType → String
  | .load_bearing_wall => "load_bearing_wall"
  | .non_load_bearing_wall => "non_load_bearing_wall"
  | .pillar => "pillar"
  | .beam => "beam"
  | .window => "window"
  | .door => "door"
  | .plumbing => "plumbing"
  | .electrical => "electrical"
  | .hvac => "hvac"

/-- `StructuralElementType(s)`: enum lookup by value, `none` when the string
is no member value (Python raises `ValueError` there). -/
def parse_element_type (s : String) : Option StructuralElementType :=
  if s = "load_bearing_wall" then some .load_bearing_wall
  else if s = "non_load_bearing_wall" then some .non_load_bearing_wall
  else if s = "pillar" then some .pillar
  else if s = "beam" then some .beam
  else if s = "window" then some .window
  else if s = "door" then some .door
  else if s = "plumbing" then some .plumbing
  else if s = "electrical" then some .electrical
  else if s = "hvac" then some .hvac
  else none

/-- The `try: StructuralElementType(...) except ValueError:` fallback used in
`ArchitectAgent.analyze_dwg_json`. -/
def element_type_or_default (s : String) : StructuralElementType :=
  (parse_element_type s).getD .non_load_bearing_wall

/-- `schemas.StructuralElement`. -/
structure StructuralElement where
  element_type : StructuralElementType
  label : String
  position : Option Pos
  is_demolishable : Bool
  demolition_risk : String := "none"
  demolition_note : Option String := none
  confidence : ℚ := 0
deriving DecidableEq

/-- `schemas.FloorPlanAnalysis` (the fields the embedded functions read). -/
structure FloorPlanAnalysis where
  floor_plan_id : Option String := none
  image_dimensions : Option (ℚ × ℚ) := none
  estimated_area : Option ℚ := none
  room_count : ℤ := 0
  bathroom_count : ℤ := 0
  elements : List StructuralElement := []
  analysis_summary : String := ""
  warnings : List String := []
deriving DecidableEq

/-- `schemas.DemolitionValidation`. -/
structure DemolitionValidation where
  is_safe : Bool
  selected_elements : List String := []
  risk_level : String := "low"
  structural_impact : String := ""
  recommendations : List String := []
  warnings : List String := []
  estimated_demolition_cost : Option ℤ := none
deriving DecidableEq

/-- A `coordinates` dict of a DWG item, with all keys read through
`get(k, 0)` (so absent keys are already the value `0` here). -/
structure Coords where
  x : ℚ
  y : ℚ
  width : ℚ
  height : ℚ
deriving DecidableEq

/-- A raw DWG item `{name, layer, coordinates}`; `coordinates = none` models
a falsy (absent or empty) coordinates dict. -/
structure DwgItem where
  name : String := ""
  layer : String := ""
  coordinates : Option Coords := none
deriving DecidableEq

/-- `item.get("coordinates", {})` followed by `get(k, 0)` reads. -/
def DwgItem.coordsD (it : DwgItem) : Coords := it.coordinates.getD ⟨0, 0, 0, 0⟩

/-- The raw structural dataset `dwg_json`: category name to item list. -/
structure DwgData where
  walls : List DwgItem := []
  doors : List DwgItem := []
  windows : List DwgItem := []
  elements : List DwgItem := []
deriving DecidableEq

/-- `ArchitectAgent._find_max_y`: maximum of `y + height` over the items of
all four categories, starting from 0. -/
def find_max_y (d : DwgData) : ℚ :=
  (d.walls ++ d.doors ++ d.windows ++ d.elements).foldl
    (fun m it => max m (it.coordsD.y + it.coordsD.height)) 0

/-- The in-place `position["y"] = max_y - position.get("y", 0) -
position.get("height", 0)` flip from `analyze_dwg_json`. -/
def flip_y (maxY : ℚ) (p : Pos) : Pos :=
  { p with y := some (maxY - p.y.getD 0 - p.height.getD 0) }

/-- The coordinate normalization applied to each parsed element's position
dict in `analyze_dwg_json`: flip `y` when `max_y > 0`, otherwise leave the
dict untouched. -/
def normalize_position (maxY : ℚ) (pd : Option Pos) : Option Pos :=
  if 0 < maxY then some (flip_y maxY (pd.getD {})) else pd

/-- One entry of the LLM response's `elements` list in `analyze_dwg_json`,
every key optional. The `position` field is doubly optional: the outer layer
is key presence (an absent key is defaulted to the full
`{"x": 0, "y": 0, "width": 0, "height": 0}` dict), the inner layer is dict
truthiness. -/
structure ParsedElem where
  element_type : Option String := none
  label : Option String := none
  position : Option (Option Pos) := none
  is_demolishable : Option Bool := none
  demolition_risk : Option String := none
  demolition_note : Option String := none
  confidence : Option ℚ := none
deriving DecidableEq

/-- Construction of one `StructuralElement` from a parsed LLM element in
`analyze_dwg_json` (defaults and Y-flip as in the source). -/
def mk_dwg_element (maxY : ℚ) (e : ParsedElem) : StructuralElement :=
  { element_type := element_type_or_default (e.element_type.getD "non_load_bearing_wall")
  , label := e.label.getD "Unknown"
  , position := normalize_position maxY
      (e.position.getD (some { x := some 0, y := some 0, width := some 0, height := some 0 }))
  , is_demolishable := e.is_demolishable.getD true
  , demolition_risk := e.demolition_risk.getD "none"
  , demolition_note := e.demolition_note
  , confidence := e.confidence.getD (1/2) }

/-- The window coordinate records collected by
`_infer_outer_walls_from_windows`. -/
structure WinCoord where
  name : String
  x : ℚ
  y : ℚ
  width : ℚ
  height : ℚ
deriving DecidableEq

/-- `window_coords` of `_infer_outer_walls_from_windows`. -/
def window_coords_of (d : DwgData) : List WinCoord :=
  d.windows.map (fun w => ⟨w.name, w.coordsD.x, w.coordsD.y, w.coordsD.width, w.coordsD.height⟩)

/-- `wall_y_positions` of `_infer_outer_walls_from_windows` (the source
builds a Python set, which is only ever filtered, so a list is equivalent). -/
def wall_y_positions (d : DwgData) : List ℚ :=
  d.walls.map (fun w => w.coordsD.y)

/-- `min_window_y`: minimum window `y` (source computes it only when windows
exist; `[]` falls back to `listMin`'s default). -/
def min_window_y (d : DwgData) : ℚ :=
  listMin ((window_coords_of d).map WinCoord.y)

/-- `walls_above_windows = [y for y in wall_y_positions if y <= min_window_y]`. -/
def walls_above_windows (d : DwgData) : List ℚ :=
  (wall_y_positions d).filter (fun y => decide (y ≤ min_window_y d))

/-- `outer_windows`: the windows sharing the minimum window `y`. -/
def outer_windows_of (d : DwgData) : List WinCoord :=
  (window_coords_of d).filter (fun w => decide (w.y = min_window_y d))

/-- Horizontal extent of the outermost window row: minimum `x`. -/
def outer_min_x (d : DwgData) : ℚ :=
  listMin ((outer_windows_of d).map WinCoord.x)

/-- Horizontal extent of the outermost window row: maximum `x + width`. -/
def outer_max_x (d : DwgData) : ℚ :=
  listMax ((outer_windows_of d).map (fun w => w.x + w.width))

/-- `wall_thickness = 20` — the fixed standard outer-wall thickness. -/
def wall_thickness : ℚ := 20

/-- The warning string emitted when the outer wall is found missing. -/
def missing_wall_warning (d : DwgData) : String :=
  "⚠️ 외벽 데이터 누락 감지: 창문(Y=" ++ py_num_str (min_window_y d) ++
    ")이 벽 없이 배치됨. 외벽을 자동 추론합니다."

/-- The synthesized outer-wall `StructuralElement` built by
`_infer_outer_walls_from_windows`. -/
def inferred_wall (d : DwgData) (maxY : ℚ) : StructuralElement :=
  let wall_y_original := min_window_y d
  let wall_y_flipped :=
    if 0 < maxY then maxY - wall_y_original - wall_thickness else wall_y_original
  { element_type := .load_bearing_wall
  , label := "외벽-추론 (창문 기반)"
  , position := some
      { x := some (outer_min_x d)
      , y := some wall_y_flipped
      , width := some (outer_max_x d - outer_min_x d)
      , height := some wall_thickness }
  , is_demolishable := false
  , demolition_risk := "high"
  , demolition_note := some "외벽은 구조물이므로 철거 불가. 창문 위치 기반으로 자동 추론된 요소입니다."
  , confidence := 7/10 }

/-- `ArchitectAgent._infer_outer_walls_from_windows`: returns the inferred
wall elements and the warning messages. The source's
`if min_window_y is not None` is always true once windows exist, and the
warning is appended before the (always satisfied) `if outer_windows` check,
which the nested structure below mirrors. -/
def infer_outer_walls_from_windows (d : DwgData) (maxY : ℚ) :
    List StructuralElement × List String :=
  if d.windows.isEmpty then ([], [])
  else if (walls_above_windows d).isEmpty then
    if (outer_windows_of d).isEmpty then ([], [missing_wall_warning d])
    else ([inferred_wall d maxY], [missing_wall_warning d])
  else ([], [])

/-- The per-element part of `analyze_dwg_json`: each LLM element normalized
into a `StructuralElement` (before outer-wall inference). -/
def dwg_base_elements (parsed : List ParsedElem) (d : DwgData) : List StructuralElement :=
  parsed.map (mk_dwg_element (find_max_y d))

/-- The `elements` list assembled by `analyze_dwg_json`: normalized parsed
elements, then (`if inferred_walls: elements.extend(inferred_walls)`) the
inferred outer walls. -/
def analyze_dwg_json_elements (parsed : List ParsedElem) (d : DwgData) :
    List StructuralElement :=
  let elements := dwg_base_elements parsed d
  let inferred := (infer_outer_walls_from_windows d (find_max_y d)).1
  if inferred.isEmpty then elements else elements ++ inferred

/-- The parsed-JSON dict consumed by `validate_demolition_plan`, restricted
to the keys that function reads. `_parse_json_response` puts an `"error"`
key (plus `raw_content`) into the dict exactly when `json.loads` failed. -/
structure ParsedValidationResponse where
  error : Option String := none
  raw_content : Option String := none
  is_safe : Option Bool := none
  selected_elements : Option (List String) := none
  risk_level : Option String := none
  structural_impact : Option String := none
  recommendations : Option (List String) := none
  warnings : Option (List String) := none
  estimated_demolition_cost : Option ℤ := none
deriving DecidableEq

/-- The pure tail of `ArchitectAgent.validate_demolition_plan`: how the
parsed model response and the caller's selected labels become a
`DemolitionValidation` (both the parse-error branch and the normal branch). -/
def validate_demolition_plan (result : ParsedValidationResponse)
    (selected_element_labels : List String) : DemolitionValidation :=
  if result.error.isSome then
    { is_safe := true
    , selected_elements := selected_element_labels
    , risk_level := "low"
    , structural_impact := "AI 분석 중 오류가 발생하여 기본 검증 결과를 반환합니다."
    , recommendations := ["전문가와 상담하시기 바랍니다."]
    , warnings := ["AI 분석 오류 - 수동 검토 필요"]
    , estimated_demolition_cost := none }
  else
    { is_safe := result.is_safe.getD false
    , selected_elements := result.selected_elements.getD selected_element_labels
    , risk_level := result.risk_level.getD "low"
    , structural_impact := result.structural_impact.getD ""
    , recommendations := result.recommendations.getD []
    , warnings := result.warnings.getD []
    , estimated_demolition_cost := result.estimated_demolition_cost }

/-- `element.label.lower() if element.label else ""` (DesignerAgent). -/
def label_lower (e : StructuralElement) : String :=
  if e.label = "" then "" else pyLower e.label

/-- The `elements_str` accumulation of `DesignerAgent._calculate_camera_hash`:
`f"{e.label}:{pos.get('x', 0)}:{pos.get('y', 0)}:"` concatenated in element
order (with `pos = e.position or {}`). -/
def elements_str (es : List StructuralElement) : String :=
  es.foldl
    (fun acc e =>
      acc ++ e.label ++ ":" ++ py_num_str (pos_get e.position Pos.x 0) ++ ":" ++
        py_num_str (pos_get e.position Pos.y 0) ++ ":")
    ""

/-- `hash_input = f"{elements_str}{viewpoint}{analysis.estimated_area}"`. -/
def hash_input (a : FloorPlanAnalysis) (viewpoint : String) : String :=
  elements_str a.elements ++ viewpoint ++ py_opt_num_str a.estimated_area

/-- `DesignerAgent._calculate_camera_hash`:
`hash(hash_input) % (2**32)`. Python's built-in `hash` on `str` is salted
per process (`PYTHONHASHSEED`), so it enters the embedding as the parameter
`py_hash`; `%` with a positive modulus is Euclidean in Python, matching
`Int.emod`. -/
def calculate_camera_hash (py_hash : String → ℤ) (a : FloorPlanAnalysis)
    (viewpoint : String) : ℕ :=
  ((py_hash (hash_input a viewpoint)) % (2 ^ 32 : ℤ)).toNat

/-- The five room categories of `_extract_room_positions`, in source order. -/
inductive RoomCategory where
  | kitchen
  | living_room
  | bedroom
  | bathroom
  | entrance
deriving DecidableEq

/-- Position of a category in the source's if/elif chain (0 = tried first). -/
def category_rank : RoomCategory → ℕ
  | .kitchen => 0
  | .living_room => 1
  | .bedroom => 2
  | .bathroom => 3
  | .entrance => 4

/-- Keyword test for the kitchen branch: `"주방" in l or "kitchen" in l`. -/
def matches_kitchen (l : String) : Bool :=
  strContains l "주방" || strContains l "kitchen"

/-- Keyword test for the living-room branch. -/
def matches_living_room (l : String) : Bool :=
  strContains l "거실" || strContains l "living"

/-- Keyword test for the bedroom branch (note `"방"` is also a substring of
`"주방"`, which is why chain order matters). -/
def matches_bedroom (l : String) : Bool :=
  strContains l "침실" || strContains l "bedroom" || strContains l "방"

/-- Keyword test for the bathroom branch. -/
def matches_bathroom (l : String) : Bool :=
  strContains l "욕실" || strContains l "bathroom" || strContains l "화장실"

/-- Keyword test for the entrance branch. -/
def matches_entrance (l : String) : Bool :=
  strContains l "현관" || strContains l "entrance"

/-- Keyword test of a given category. -/
def matches_category : RoomCategory → String → Bool
  | .kitchen => matches_kitchen
  | .living_room => matches_living_room
  | .bedroom => matches_bedroom
  | .bathroom => matches_bathroom
  | .entrance => matches_entrance

/-- The room-classification if/elif chain of `_extract_room_positions`
(lines appending to `rooms[...]["elements"]`): the first matching category
wins, unmatched labels join no category. -/
def classify_room (l : String) : Option RoomCategory :=
  if matches_kitchen l then some .kitchen
  else if matches_living_room l then some .living_room
  else if matches_bedroom l then some .bedroom
  else if matches_bathroom l then some .bathroom
  else if matches_entrance l then some .entrance
  else none

/-- One `{"pos": ..., "label": ...}` member record of a room category;
`pos` is `element.position or {}` with dict truthiness as `Option`. -/
structure RoomMember where
  pos : Option Pos
  label : String
deriving DecidableEq

/-- `e["pos"].get("x", 50)` as evaluated on a member record. -/
def member_x (m : RoomMember) : ℚ := pos_get m.pos Pos.x 50

/-- `e["pos"].get("y", 50)` as evaluated on a member record. -/
def member_y (m : RoomMember) : ℚ := pos_get m.pos Pos.y 50

/-- One `rooms[category]` entry. -/
structure RoomData where
  elements : List RoomMember
  center : Option (ℚ × ℚ)
deriving DecidableEq

/-- A window record collected by `_extract_room_positions`. -/
structure WindowInfo where
  label : String
  x : ℚ
  y : ℚ
  width : ℚ
  height : ℚ
  is_continuous : Bool
deriving DecidableEq

/-- A door record collected by `_extract_room_positions`. -/
structure DoorInfo where
  label : String
  x : ℚ
  y : ℚ
deriving DecidableEq

/-- Return value of `_extract_room_positions`. -/
structure RoomPositions where
  kitchen : RoomData
  living_room : RoomData
  bedroom : RoomData
  bathroom : RoomData
  entrance : RoomData
  windows : List WindowInfo
  doors : List DoorInfo
deriving DecidableEq

/-- Category accessor on the extraction result. -/
def RoomPositions.room_data (r : RoomPositions) : RoomCategory → RoomData
  | .kitchen => r.kitchen
  | .living_room => r.living_room
  | .bedroom => r.bedroom
  | .bathroom => r.bathroom
  | .entrance => r.entrance

/-- The member list a category accumulates over the element loop of
`_extract_room_positions`: the loop appends, in element order, each element
to the single category its lowercased label first matches. -/
def room_members (a : FloorPlanAnalysis) (c : RoomCategory) : List RoomMember :=
  a.elements.filterMap (fun e =>
    if classify_room (label_lower e) = some c then some ⟨e.position, e.label⟩ else none)

/-- The per-category centroid computation of `_extract_room_positions`:
mean of `pos.get("x", 50)` / `pos.get("y", 50)` over members with a truthy
`pos`, guarded by `if room_data["elements"]` and `if xs and ys`. -/
def compute_center (ms : List RoomMember) : Option (ℚ × ℚ) :=
  if ms.isEmpty then none
  else
    let xs := ms.filterMap (fun m => m.pos.map (fun p => (p.x).getD 50))
    let ys := ms.filterMap (fun m => m.pos.map (fun p => (p.y).getD 50))
    if xs.isEmpty || ys.isEmpty then none
    else some (xs.sum / (xs.length : ℚ), ys.sum / (ys.length : ℚ))

/-- `if not rooms[k]["center"]: rooms[k]["center"] = default` — a tuple is
always truthy, so only `None` is replaced. -/
def apply_default (rd : RoomData) (dflt : ℚ × ℚ) : RoomData :=
  if rd.center = none then { rd with center := some dflt } else rd

/-- The window record `_extract_room_positions` builds for a window element. -/
def window_info_of (e : StructuralElement) : WindowInfo :=
  let ll := label_lower e
  { label := e.label
  , x := pos_get e.position Pos.x 50
  , y := pos_get e.position Pos.y 50
  , width := pos_get e.position Pos.width 20
  , height := pos_get e.position Pos.height 5
  , is_continuous := strContains ll "단일" || strContains ll "연속" || strContains ll "전면" }

/-- The fallback window appended when no window elements were collected. -/
def default_window : WindowInfo :=
  { label := "거실 창문", x := 10, y := 50, width := 30, height := 5, is_continuous := true }

/-- One category's `rooms[c]` entry right after the loop and centroid pass
(before the default-centroid pass). -/
def room_data_of (a : FloorPlanAnalysis) (c : RoomCategory) : RoomData :=
  { elements := room_members a c, center := compute_center (room_members a c) }

/-- The window records collected by the element loop of
`_extract_room_positions`. -/
def collected_windows (a : FloorPlanAnalysis) : List WindowInfo :=
  a.elements.filterMap (fun e =>
    if element_type_val e.element_type = "window" then some (window_info_of e) else none)

/-- The `windows` list returned by `_extract_room_positions`: the collected
windows, or the fallback default window when none were collected. -/
def extract_windows (a : FloorPlanAnalysis) : List WindowInfo :=
  if (collected_windows a).isEmpty then [default_window] else collected_windows a

/-- `DesignerAgent._extract_room_positions`: classify elements into room
categories, compute centroids, apply the canonical-layout defaults for
kitchen / living room / entrance, collect windows (with fallback) and doors. -/
def extract_room_positions (a : FloorPlanAnalysis) : RoomPositions :=
  let doors := a.elements.filterMap (fun e =>
    if element_type_val e.element_type = "door" then
      some ({ label := e.label
            , x := pos_get e.position Pos.x 50
            , y := pos_get e.position Pos.y 50 } : DoorInfo)
    else none)
  { kitchen := apply_default (room_data_of a .kitchen) (60, 50)
  , living_room := apply_default (room_data_of a .living_room) (30, 50)
  , bedroom := room_data_of a .bedroom
  , bathroom := room_data_of a .bathroom
  , entrance := apply_default (room_data_of a .entrance) (85, 50)
  , windows := extract_windows a
  , doors := doors }

/-- `int(analysis.estimated_area * 3.3)` (pyeong to square meters). -/
def area_times_33 (q : ℚ) : ℤ := trunc_to_int (q * (33/10))

/-- `int(analysis.estimated_area * 3.3) if analysis.estimated_area else 100`
(Python float truthiness: both `None` and `0.0` fall back to 100). -/
def area_sqm_spatial (area : Option ℚ) : ℤ :=
  match area with
  | none => 100
  | some q => if q = 0 then 100 else area_times_33 q

/-- `room_info = f"{analysis.room_count} bedrooms, {analysis.bathroom_count} bathrooms"`. -/
def room_info_str (a : FloorPlanAnalysis) : String :=
  py_int_str a.room_count ++ " bedrooms, " ++ py_int_str a.bathroom_count ++ " bathrooms"

/-- A window record collected by `_convert_floor_plan_to_prompt` (coordinate
defaults 0, plus the inferred compass direction when the position is truthy). -/
structure ConvWindow where
  label : String
  width : ℚ
  height : ℚ
  x : ℚ
  y : ℚ
  direction : Option String
deriving DecidableEq

/-- Window-record construction of `_convert_floor_plan_to_prompt`, including
the `y < 30` / `y > 70` / `x < 30` / `x > 70` direction inference. -/
def conv_window_of (e : StructuralElement) : ConvWindow :=
  let pos := e.position
  { label := e.label
  , width := pos_get pos Pos.width 0
  , height := pos_get pos Pos.height 0
  , x := pos_get pos Pos.x 0
  , y := pos_get pos Pos.y 0
  , direction :=
      match pos with
      | none => none
      | some p =>
        let y := (p.y).getD 50
        if y < 30 then some "north"
        else if y > 70 then some "south"
        else
          let x := (p.x).getD 50
          if x < 30 then some "west"
          else if x > 70 then some "east"
          else none }

/-- The window-description sentence of `_convert_floor_plan_to_prompt`
(the `if windows:` block with its 1 / 2 / many cases). The many-window case
renders a Python set; set iteration order is unspecified in Python, the
embedding fixes the first-occurrence order of `List.dedup`. -/
def conv_window_features (ws : List ConvWindow) : List String :=
  match ws with
  | [] => []
  | [w] =>
    let direction := (w.direction).getD ""
    let label := pyLower w.label
    let is_cont := strContains label "단일" || strContains label "연속" || strContains label "전면"
    let dir_str := if direction ≠ "" then direction ++ "-facing " else ""
    if w.width > 30 ∨ is_cont then
      ["one large continuous floor-to-ceiling " ++ dir_str ++
        "window wall spanning the living room without any pillars or dividers"]
    else ["single " ++ dir_str ++ "window with natural light"]
  | [w1, w2] =>
    if |w1.y - w2.y| < 10 ∨ |w1.x - w2.x| < 10 then
      let direction := (w1.direction).getD ""
      let dir_str := if direction ≠ "" then direction ++ "-facing " else ""
      ["two " ++ dir_str ++ "windows on the same wall"]
    else ["windows on multiple walls providing cross-ventilation"]
  | _ =>
    let directions :=
      (ws.filterMap (fun w =>
        match w.direction with
        | none => none
        | some dd => if dd = "" then none else some dd)).dedup
    if directions.isEmpty then ["multiple windows with natural light"]
    else ["multiple windows facing " ++ py_join ", " directions ++ " with abundant natural light"]

/-- `DesignerAgent._convert_floor_plan_to_prompt`: the generic
whole-apartment description fallback. -/
def convert_floor_plan_to_prompt (a : FloorPlanAnalysis) : String :=
  let parts : List String :=
    match a.estimated_area with
    | none => []
    | some q =>
      if q = 0 then []
      else ["a " ++ py_int_str (area_times_33 q) ++ " square meter apartment"]
  let room_info : List String :=
    (if a.room_count = 0 then [] else [py_int_str a.room_count ++ " bedrooms"]) ++
    (if a.bathroom_count = 0 then [] else [py_int_str a.bathroom_count ++ " bathrooms"])
  let parts := parts ++
    (if room_info.isEmpty then [] else ["with " ++ py_join ", " room_info])
  let has_open_kitchen := a.elements.any (fun e =>
    (strContains (label_lower e) "주방" || strContains (label_lower e) "kitchen") &&
    (strContains (label_lower e) "오픈" ||
      decide (element_type_val e.element_type = "non_load_bearing_wall")))
  let has_living_room := a.elements.any (fun e =>
    strContains (label_lower e) "거실" || strContains (label_lower e) "living")
  let conv_windows := a.elements.filterMap (fun e =>
    if element_type_val e.element_type = "window" then some (conv_window_of e) else none)
  let features : List String :=
    (if has_open_kitchen then ["open-plan kitchen connected to living area"] else []) ++
    (if has_living_room then ["spacious living room"] else []) ++
    conv_window_features conv_windows
  let parts := parts ++
    (if features.isEmpty then [] else ["featuring " ++ py_join ", " features])
  let parts := parts ++
    (if a.analysis_summary = "" then []
     else
       let sl := pyLower a.analysis_summary
       (if strContains sl "넓" || strContains sl "open" then ["with open floor plan"] else []) ++
       (if strContains sl "ㄱ" || strContains sl "l자" || strContains sl "l-shaped" then
         ["L-shaped layout"] else []))
  if parts.isEmpty then "modern apartment interior" else py_join " " parts

/-- The scene-assertion list of the kitchen-to-living branch of
`_generate_spatial_prompt` (before the common room-info sentence). -/
def kitchen_to_living_parts (a : FloorPlanAnalysis) : List String :=
  let windows := (extract_room_positions a).windows
  [ "Interior photography of a " ++ py_int_str (area_sqm_spatial a.estimated_area) ++
      "sqm modern Korean apartment living room"
  , "POV shot from behind kitchen counter looking at the living room"
  , "Kitchen counter and cabinets visible in the FOREGROUND at bottom of frame"
  , "Living room sofa and furniture in the MIDDLE of frame" ] ++
  (match windows with
   | [] => []
   | main_window :: _ =>
     if main_window.is_continuous ∨ windows.length = 1 then
       ["Large floor-to-ceiling window wall in the BACKGROUND spanning the far wall, one continuous window without pillars"]
     else ["Windows visible in the BACKGROUND at the far wall"]) ++
  ["NO kitchen appliances or sink visible, those are behind the camera"]

/-- The scene-assertion list of the living-to-kitchen branch. -/
def living_to_kitchen_parts (a : FloorPlanAnalysis) : List String :=
  [ "Interior photography of a " ++ py_int_str (area_sqm_spatial a.estimated_area) ++
      "sqm modern Korean apartment kitchen"
  , "POV shot from living room sofa looking at the open kitchen"
  , "Sofa armrest or coffee table edge visible in the FOREGROUND at bottom of frame"
  , "Open kitchen with island counter, cabinets, and appliances in the CENTER and BACKGROUND of frame"
  , "Kitchen sink, refrigerator, and cooking area clearly visible"
  , "Natural light coming from BEHIND the camera (from living room windows)"
  , "NO windows directly visible in this view, windows are behind the viewer" ]

/-- The scene-assertion list of the toward-window branch. -/
def toward_window_parts (a : FloorPlanAnalysis) : List String :=
  let windows := (extract_room_positions a).windows
  [ "Interior photography of a " ++ py_int_str (area_sqm_spatial a.estimated_area) ++
      "sqm modern Korean apartment"
  , "Camera facing towards the windows" ] ++
  (match windows with
   | [] => []
   | main_window :: _ =>
     if main_window.is_continuous ∨ windows.length = 1 then
       ["ONE large continuous floor-to-ceiling window wall DIRECTLY IN FRONT, no columns or pillars dividing the window"]
     else []) ++
  ["Bright natural light streaming in"]

/-- The scene-assertion list of the at-entrance branch. -/
def at_entrance_parts (a : FloorPlanAnalysis) : List String :=
  let windows := (extract_room_positions a).windows
  [ "Interior photography of a " ++ py_int_str (area_sqm_spatial a.estimated_area) ++
      "sqm modern Korean apartment"
  , "Camera at the entrance, looking into the apartment"
  , "Living room visible in front or to the side" ] ++
  (if windows.isEmpty then []
   else ["Windows visible in the distance at the far end of the apartment"])

/-- The scene-assertion list of the at-bedroom branch. -/
def at_bedroom_parts (a : FloorPlanAnalysis) : List String :=
  [ "Interior photography of a " ++ py_int_str (area_sqm_spatial a.estimated_area) ++
      "sqm modern Korean apartment bedroom"
  , "Camera at the bedroom entrance, looking into the room"
  , "Bed visible in the center or against one wall" ]

/-- The scene-assertion list of the at-bathroom branch. -/
def at_bathroom_parts (a : FloorPlanAnalysis) : List String :=
  [ "Interior photography of a " ++ py_int_str (area_sqm_spatial a.estimated_area) ++
      "sqm modern Korean apartment bathroom"
  , "Camera at the bathroom entrance, looking inside" ]

/-- `DesignerAgent._generate_spatial_prompt`: classify the viewpoint text by
keyword, emit the branch's scene assertions plus the common apartment-info
sentence, joined with ". "; the unrecognized case falls back to
`_convert_floor_plan_to_prompt`. (The source also computes kitchen/living
centroid deltas and a left/right/forward/backward direction, but never uses
them in the returned string.) -/
def generate_spatial_prompt (a : FloorPlanAnalysis) (viewpoint : String) : String :=
  let vl := pyLower viewpoint
  if (strContains vl "kitchen" && strContains vl "living") || strContains vl "주방에서" then
    py_join ". " (kitchen_to_living_parts a ++ ["Apartment has " ++ room_info_str a])
  else if (strContains vl "living" && strContains vl "kitchen") || strContains vl "거실에서" then
    py_join ". " (living_to_kitchen_parts a ++ ["Apartment has " ++ room_info_str a])
  else if strContains vl "window" || strContains vl "창가" then
    py_join ". " (toward_window_parts a ++ ["Apartment has " ++ room_info_str a])
  else if strContains vl "entrance" || strContains vl "현관" then
    py_join ". " (at_entrance_parts a ++ ["Apartment has " ++ room_info_str a])
  else if strContains vl "bedroom" || strContains vl "침실" then
    py_join ". " (at_bedroom_parts a ++ ["Apartment has " ++ room_info_str a])
  else if strContains vl "bathroom" || strContains vl "욕실" then
    py_join ". " (at_bathroom_parts a ++ ["Apartment has " ++ room_info_str a])
  else convert_floor_plan_to_prompt a

/-- One outlined rectangle drawn onto the line-art canvas. -/
structure DrawRect where
  x1 : ℚ
  y1 : ℚ
  x2 : ℚ
  y2 : ℚ
  red : ℕ
  green : ℕ
  blue : ℕ
  line_width : ℕ
deriving DecidableEq

/-- The drawing produced by `_generate_lineart_from_dwg` before PNG/base64
serialization (the canvas size and the ordered outlined rectangles; PIL's
rasterization and encoding are outside the embedding). -/
structure LineartImage where
  img_width : ℕ
  img_height : ℕ
  wall_rects : List DrawRect
  door_rects : List DrawRect
  window_rects : List (DrawRect × DrawRect)
deriving DecidableEq

/-- `all_coords` of `_generate_lineart_from_dwg`: the
`(x, y, x+width, y+height)` tuples of every item of the four categories
whose coordinates dict is truthy. -/
def lineart_all_coords (d : DwgData) : List (ℚ × ℚ × ℚ × ℚ) :=
  (d.walls ++ d.doors ++ d.windows ++ d.elements).filterMap (fun it =>
    it.coordinates.map (fun c => (c.x, c.y, c.x + c.width, c.y + c.height)))

/-- Bounding-box minimum x of the collected coordinates. -/
def bbox_min_x (d : DwgData) : ℚ := listMin ((lineart_all_coords d).map (fun t => t.1))

/-- Bounding-box minimum y. -/
def bbox_min_y (d : DwgData) : ℚ := listMin ((lineart_all_coords d).map (fun t => t.2.1))

/-- Bounding-box maximum x (over `x + width`). -/
def bbox_max_x (d : DwgData) : ℚ := listMax ((lineart_all_coords d).map (fun t => t.2.2.1))

/-- Bounding-box maximum y (over `y + height`). -/
def bbox_max_y (d : DwgData) : ℚ := listMax ((lineart_all_coords d).map (fun t => t.2.2.2))

/-- `DesignerAgent._generate_lineart_from_dwg`: `none` models the source's
empty-string return on degenerate input (no coordinates, or a zero-width /
zero-height bounding box); otherwise the scaled drawing is produced. -/
def generate_lineart_from_dwg (d : DwgData) (width : ℕ := 1024) (height : ℕ := 768) :
    Option LineartImage :=
  if (lineart_all_coords d).isEmpty then none
  else
    let min_x := bbox_min_x d
    let max_y := bbox_max_y d
    let dwg_width := bbox_max_x d - min_x
    let dwg_height := max_y - bbox_min_y d
    if dwg_width = 0 ∨ dwg_height = 0 then none
    else
      let margin : ℚ := 50
      let scale_x := ((width : ℚ) - 2 * margin) / dwg_width
      let scale_y := ((height : ℚ) - 2 * margin) / dwg_height
      let scale := min scale_x scale_y
      let transform_coord := fun (x y : ℚ) =>
        (margin + (x - min_x) * scale, margin + (max_y - y) * scale)
      let wall_rects := d.walls.filterMap (fun wall =>
        wall.coordinates.map (fun c =>
          let p := transform_coord c.x c.y
          let x2 := p.1 + c.width * scale
          let y2 := p.2 - c.height * scale
          let layer := pyUpper wall.layer
          let lw : ℕ := if strContains layer "LOAD" then 4 else 2
          ({ x1 := p.1, y1 := y2, x2 := x2, y2 := p.2
           , red := 0, green := 0, blue := 0, line_width := lw } : DrawRect)))
      let door_rects := d.doors.filterMap (fun door =>
        door.coordinates.map (fun c =>
          let p := transform_coord c.x c.y
          let w := c.width * scale
          let h := c.height * scale
          ({ x1 := p.1, y1 := p.2 - h, x2 := p.1 + w, y2 := p.2
           , red := 100, green := 100, blue := 100, line_width := 1 } : DrawRect)))
      let window_rects := d.windows.filterMap (fun win =>
        win.coordinates.map (fun c =>
          let p := transform_coord c.x c.y
          let w := c.width * scale
          let h := c.height * scale
          (({ x1 := p.1, y1 := p.2 - h, x2 := p.1 + w, y2 := p.2
            , red := 50, green := 50, blue := 50, line_width := 2 } : DrawRect),
           ({ x1 := p.1 + 2, y1 := p.2 - h + 2, x2 := p.1 + w - 2, y2 := p.2 - 2
            , red := 150, green := 150, blue := 150, line_width := 1 } : DrawRect))))
      some
        { img_width := width
        , img_height := height
        , wall_rects := wall_rects
        , door_rects := door_rects
        , window_rects := window_rects }

/-! Concrete inputs used by the witness theorems. -/

/-- A small concrete floor-plan analysis (one continuous living-room window). -/
def sample_analysis : FloorPlanAnalysis :=
  { estimated_area := some 32
  , room_count := 3
  , bathroom_count := 2
  , elements :=
      [{ element_type := .window
       , label := "거실 전면창"
       , position := some { x := some 10, y := some 0, width := some 40, height := some 3 }
       , is_demolishable := false
       , demolition_risk := "medium"
       , demolition_note := none
       , confidence := 9/10 }] }

/-- A floor-plan analysis with no elements at all. -/
def analysis_empty : FloorPlanAnalysis := {}

/-- The spec's concrete inference scenario: one window
`{x: 10, y: 0, width: 40, height: 3}` and no walls. -/
def scenario_dwg : DwgData :=
  { windows := [{ name := "창문", coordinates := some ⟨10, 0, 40, 3⟩ }] }

/-- A dataset with one wall and no windows. -/
def dwg_no_windows : DwgData :=
  { walls := [{ name := "벽", coordinates := some ⟨0, 0, 100, 10⟩ }] }

/-- A dataset whose wall (y = 0) lies at or above its window row (y = 5). -/
def dwg_low_wall : DwgData :=
  { walls := [{ name := "벽", coordinates := some ⟨0, 0, 100, 10⟩ }]
  , windows := [{ name := "창문", coordinates := some ⟨10, 5, 40, 3⟩ }] }

/-- A dataset with no items at all. -/
def dwg_empty : DwgData := {}

/-- A dataset whose only item is a zero-area point (degenerate bounding box). -/
def dwg_point : DwgData :=
  { walls := [{ name := "점", coordinates := some ⟨5, 5, 0, 0⟩ }] }

/-- A parse-failure dict as produced by `_parse_json_response` on bad JSON. -/
def parse_error_response : ParsedValidationResponse :=
  { error := some "JSON 파싱 실패: Expecting value", raw_content := some "invalid model output" }

/-- An analysis with two kitchen-labelled elements carrying positions. -/
def two_kitchen_analysis : FloorPlanAnalysis :=
  { elements :=
      [{ element_type := .plumbing
       , label := "주방 싱크대"
       , position := some { x := some 10, y := some 20 }
       , is_demolishable := false
       , demolition_risk := "medium"
       , demolition_note := none
       , confidence := 8/10 }
      ,{ element_type := .non_load_bearing_wall
       , label := "주방 칸막이"
       , position := some { x := some 30, y := some 40 }
       , is_demolishable := true
       , demolition_risk := "low"
       , demolition_note := none
       , confidence := 8/10 }] }

/-! Helper lemmas. -/

lemma foldl_min_mem (xs : List ℚ) : ∀ x : ℚ, xs.foldl min x ∈ x :: xs := by
  induction xs with
  | nil => intro x; simp
  | cons y ys ih =>
    intro x
    have h := ih (min x y)
    rw [List.foldl_cons]
    rcases List.mem_cons.mp h with h | h
    · rcases min_choice x y with hm | hm
      · rw [h, hm]; exact List.mem_cons_self _ _
      · rw [h, hm]; exact List.mem_cons_of_mem _ (List.mem_cons_self _ _)
    · exact List.mem_cons_of_mem _ (List.mem_cons_of_mem _ h)

lemma listMin_mem {l : List ℚ} (h : l ≠ []) : listMin l ∈ l := by
  cases l with
  | nil => exact absurd rfl h
  | cons x xs => exact foldl_min_mem xs x

lemma filterMap_pos_sel (sel : Pos → Option ℚ) (dflt : ℚ) :
    ∀ ms : List RoomMember, (∀ m ∈ ms, m.pos.isSome = true) →
      ms.filterMap (fun m => m.pos.map (fun p => (sel p).getD dflt)) =
        ms.map (fun m => pos_get m.pos sel dflt) := by
  intro ms
  induction ms with
  | nil => intro; rfl
  | cons m ms ih =>
    intro h
    obtain ⟨p, hp⟩ := Option.isSome_iff_exists.mp (h m (List.mem_cons_self m ms))
    have ht := ih (fun x hx => h x (List.mem_cons_of_mem m hx))
    simp [List.filterMap_cons, hp, pos_get, ht]

lemma mem_infix_py_join (sep : String) :
    ∀ (l : List String) (p : String), p ∈ l → p.data <:+: (py_join sep l).data := by
  intro l
  induction l with
  | nil => intro p hp; cases hp
  | cons a rest ih =>
    intro p hp
    cases rest with
    | nil =>
      have hpa : p = a := by simpa using hp
      rw [hpa]
      exact List.infix_refl _
    | cons b rest2 =>
      have hjoin : py_join sep (a :: b :: rest2) = a ++ sep ++ py_join sep (b :: rest2) := rfl
      rw [hjoin]
      rcases List.mem_cons.mp hp with hpa | hpr
      · exact ⟨[], sep.data ++ (py_join sep (b :: rest2)).data, by
          simp [String.data_append, hpa, List.append_assoc]⟩
      · obtain ⟨s, t, hst⟩ := ih p hpr
        refine ⟨a.data ++ sep.data ++ s, t, ?_⟩
        simp only [String.data_append, List.append_assoc] at hst ⊢
        rw [hst]

lemma strContains_py_join_of_mem (sep p : String) (l : List String) (h : p ∈ l) :
    strContains (py_join sep l) p = true :=
  decide_eq_true (mem_infix_py_join sep l p h)

lemma apply_default_center_isSome (rd : RoomData) (p : ℚ × ℚ) :
    (apply_default rd p).center.isSome = true := by
  unfold apply_default
  split
  · rfl
  · next h => simpa [Option.isSome_iff_ne_none] using h

lemma extract_windows_ne_nil (a : FloorPlanAnalysis) : extract_windows a ≠ [] := by
  unfold extract_windows
  split
  · simp
  · next h => simpa [List.isEmpty_iff] using h

/-! Claim theorems. -/

/-- C1: the seed `_calculate_camera_hash` returns is not a function of
`(elements, viewpoint, estimated_area)` alone — it also depends on the
process's string-hash function (Python's built-in `hash` on `str` is salted
per process via PYTHONHASHSEED), so identical inputs need not yield the
identical seed across process runs, contradicting the claim and the
function's own docstring (재현성 보장). Two runs whose salted hashes differ
on the hash input produce different seeds for the very same analysis and
viewpoint. -/
theorem calculate_camera_hash_process_dependent :
    ∃ h1 h2 : String → ℤ,
      calculate_camera_hash h1 sample_analysis "주방에서 거실 보는 시점" ≠
        calculate_camera_hash h2 sample_analysis "주방에서 거실 보는 시점" := by
  refine ⟨fun _ => 0, fun _ => 1, ?_⟩
  unfold calculate_camera_hash
  decide

/-- C2 counterexample: on a floor plan with no elements, the bedroom (and
bathroom) categories have zero matching elements, yet
`_extract_room_positions` leaves their centroid `None` — the default
centroids are only assigned to kitchen, living room and entrance. -/
theorem extract_room_positions_bedroom_null :
    (extract_room_positions analysis_empty).bedroom.elements = [] ∧
    (extract_room_positions analysis_empty).bedroom.center = none ∧
    (extract_room_positions analysis_empty).bathroom.center = none := by
  refine ⟨rfl, rfl, rfl⟩

/-- C2 amended: for every floor plan, the kitchen, living_room and entrance
categories always end up with a non-null centroid (matching elements or the
canonical defaults (60,50), (30,50), (85,50)); bedroom and bathroom receive
no default and may stay null. -/
theorem extract_room_positions_default_centers (a : FloorPlanAnalysis) :
    (extract_room_positions a).kitchen.center.isSome = true ∧
    (extract_room_positions a).living_room.center.isSome = true ∧
    (extract_room_positions a).entrance.center.isSome = true :=
  ⟨apply_default_center_isSome (room_data_of a .kitchen) (60, 50),
   apply_default_center_isSome (room_data_of a .living_room) (30, 50),
   apply_default_center_isSome (room_data_of a .entrance) (85, 50)⟩

/-- C5: the vertical flip `y ↦ max_y − y − height` applied by
`analyze_dwg_json` is an involution: for a position dict with numeric `y`
and `height` and the same `max_y > 0`, flipping twice restores the original
dict, and the flip never touches `x`. -/
theorem normalize_position_involutive (maxY yv hv : ℚ) (p : Pos)
    (hmax : 0 < maxY) (hy : p.y = some yv) (hh : p.height = some hv) :
    normalize_position maxY (normalize_position maxY (some p)) = some p ∧
    ∀ q : Pos, (flip_y maxY q).x = q.x := by
  constructor
  · obtain ⟨px, py, pw, ph⟩ := p
    obtain rfl : py = some yv := hy
    obtain rfl : ph = some hv := hh
    simp [normalize_position, flip_y, hmax, Pos.mk.injEq]
    ring
  · intro q; rfl

/-- C5 witness: a concrete flip-flip round trip at max_y = 100 on the
position {x: 5, y: 10, width: 20, height: 3}. -/
theorem normalize_position_involutive_witness :
    normalize_position 100 (normalize_position 100
        (some { x := some 5, y := some 10, width := some 20, height := some 3 })) =
      some { x := some 5, y := some 10, width := some 20, height := some 3 } ∧
    ∀ q : Pos, (flip_y 100 q).x = q.x :=
  normalize_position_involutive 100 10 3
    { x := some 5, y := some 10, width := some 20, height := some 3 }
    (by norm_num) rfl rfl

/-- C6: when the parsed model response carries an "error" key (JSON parse
failure), `validate_demolition_plan` does not raise — it returns a
`DemolitionValidation` with `is_safe = True`, `risk_level = "low"`, the
caller's selected labels echoed back, and a warning asking for manual
review. -/
theorem validate_demolition_plan_parse_error (result : ParsedValidationResponse)
    (labels : List String) (herr : result.error.isSome = true) :
    validate_demolition_plan result labels =
      { is_safe := true
      , selected_elements := labels
      , risk_level := "low"
      , structural_impact := "AI 분석 중 오류가 발생하여 기본 검증 결과를 반환합니다."
      , recommendations := ["전문가와 상담하시기 바랍니다."]
      , warnings := ["AI 분석 오류 - 수동 검토 필요"]
      , estimated_demolition_cost := none } := by
  simp [validate_demolition_plan, herr]

/-- C6 witness: the parse-error branch evaluated on a concrete failed parse
and concrete selected labels. -/
theorem validate_demolition_plan_parse_error_witness :
    validate_demolition_plan parse_error_response ["침실1-거실 칸막이벽"] =
      { is_safe := true
      , selected_elements := ["침실1-거실 칸막이벽"]
      , risk_level := "low"
      , structural_impact := "AI 분석 중 오류가 발생하여 기본 검증 결과를 반환합니다."
      , recommendations := ["전문가와 상담하시기 바랍니다."]
      , warnings := ["AI 분석 오류 - 수동 검토 필요"]
      , estimated_demolition_cost := none } :=
  validate_demolition_plan_parse_error parse_error_response ["침실1-거실 칸막이벽"] rfl

/-- C3: whenever the dataset has at least one window and no wall y-coordinate
at or above the minimum window y (i.e. no wall y with `y ≤ min_window_y`, the
source's convention), `_infer_outer_walls_from_windows` yields exactly one
inferred wall — spanning from the minimum x to the maximum x+width of the
windows sharing the minimum window y, typed `load_bearing_wall`, of the
fixed standard thickness 20, non-demolishable, risk "high", confidence 0.7 —
together with exactly one warning mentioning the missing outer wall. -/
theorem infer_outer_walls_adds_one_wall (d : DwgData) (maxY : ℚ)
    (hw : d.windows ≠ [])
    (hwall : ∀ w ∈ d.walls, ¬ (w.coordsD.y ≤ min_window_y d)) :
    infer_outer_walls_from_windows d maxY =
      ([inferred_wall d maxY], [missing_wall_warning d]) ∧
    (inferred_wall d maxY).element_type = StructuralElementType.load_bearing_wall ∧
    (inferred_wall d maxY).is_demolishable = false ∧
    (inferred_wall d maxY).demolition_risk = "high" ∧
    (inferred_wall d maxY).confidence = 7/10 ∧
    (inferred_wall d maxY).position = some
      { x := some (outer_min_x d)
      , y := some (if 0 < maxY then maxY - min_window_y d - wall_thickness else min_window_y d)
      , width := some (outer_max_x d - outer_min_x d)
      , height := some wall_thickness } ∧
    "외벽 데이터 누락 감지".data <:+: (missing_wall_warning d).data := by
  have hwe : d.windows.isEmpty = false := by simpa [List.isEmpty_iff] using hw
  have habove : walls_above_windows d = [] := by
    unfold walls_above_windows wall_y_positions
    refine List.filter_eq_nil_iff.mpr ?_
    intro y hy
    obtain ⟨w, hwm, rfl⟩ := List.mem_map.mp hy
    simpa using hwall w hwm
  have houter : outer_windows_of d ≠ [] := by
    have hmapne : (window_coords_of d).map WinCoord.y ≠ [] := by
      simp only [ne_eq, List.map_eq_nil_iff, window_coords_of]
      exact hw
    obtain ⟨w, hwm, hwy⟩ := List.mem_map.mp (listMin_mem hmapne)
    refine List.ne_nil_of_mem (a := w) ?_
    unfold outer_windows_of
    exact List.mem_filter.mpr ⟨hwm, by simp [min_window_y, hwy]⟩
  have houterE : (outer_windows_of d).isEmpty = false := by
    simpa [List.isEmpty_iff] using houter
  have hres : infer_outer_walls_from_windows d maxY =
      ([inferred_wall d maxY], [missing_wall_warning d]) := by
    simp [infer_outer_walls_from_windows, hwe, habove, houterE]
  refine ⟨hres, rfl, rfl, rfl, rfl, rfl, ?_⟩
  have h1 : "외벽 데이터 누락 감지".data <:+:
      ("⚠️ 외벽 데이터 누락 감지: 창문(Y=" : String).data := by decide
  refine h1.trans ⟨[], (py_num_str (min_window_y d)).data ++
    (")이 벽 없이 배치됨. 외벽을 자동 추론합니다." : String).data, ?_⟩
  simp [missing_wall_warning, String.data_append, List.append_assoc]

/-- C3 witness: the spec's concrete scenario — one window
{x: 10, y: 0, width: 40, height: 3}, no walls. -/
theorem infer_outer_walls_adds_one_wall_witness :
    infer_outer_walls_from_windows scenario_dwg 0 =
      ([inferred_wall scenario_dwg 0], [missing_wall_warning scenario_dwg]) ∧
    (inferred_wall scenario_dwg 0).element_type = StructuralElementType.load_bearing_wall ∧
    (inferred_wall scenario_dwg 0).is_demolishable = false ∧
    (inferred_wall scenario_dwg 0).demolition_risk = "high" ∧
    (inferred_wall scenario_dwg 0).confidence = 7/10 ∧
    (inferred_wall scenario_dwg 0).position = some
      { x := some (outer_min_x scenario_dwg)
      , y := some (if (0:ℚ) < 0 then 0 - min_window_y scenario_dwg - wall_thickness
                   else min_window_y scenario_dwg)
      , width := some (outer_max_x scenario_dwg - outer_min_x scenario_dwg)
      , height := some wall_thickness } ∧
    "외벽 데이터 누락 감지".data <:+: (missing_wall_warning scenario_dwg).data :=
  infer_outer_walls_adds_one_wall scenario_dwg 0 (by decide) (by simp [scenario_dwg])

/-- C4: `_infer_outer_walls_from_windows` returns the empty result on zero
windows; infers no wall when some wall y lies at or above (≤, source
convention) the minimum window y; and infers a wall only when windows exist
and no wall y lies at or above the minimum window y. -/
theorem infer_outer_walls_trigger_conditions (d : DwgData) (maxY : ℚ) :
    (d.windows = [] → infer_outer_walls_from_windows d maxY = ([], [])) ∧
    ((∃ w ∈ d.walls, w.coordsD.y ≤ min_window_y d) →
      (infer_outer_walls_from_windows d maxY).1 = []) ∧
    ((infer_outer_walls_from_windows d maxY).1 ≠ [] →
      d.windows ≠ [] ∧ ∀ w ∈ d.walls, ¬ (w.coordsD.y ≤ min_window_y d)) := by
  refine ⟨?_, ?_, ?_⟩
  · intro hwnil
    simp [infer_outer_walls_from_windows, hwnil]
  · rintro ⟨w, hwm, hwy⟩
    have habove : (walls_above_windows d).isEmpty = false := by
      have hmem : w.coordsD.y ∈ walls_above_windows d := by
        unfold walls_above_windows wall_y_positions
        exact List.mem_filter.mpr ⟨List.mem_map_of_mem _ hwm, by simpa using hwy⟩
      simpa [List.isEmpty_iff] using List.ne_nil_of_mem hmem
    by_cases hwe : d.windows.isEmpty
    · simp [infer_outer_walls_from_windows, hwe]
    · simp [infer_outer_walls_from_windows, hwe, habove]
  · intro hne
    by_cases h1 : d.windows.isEmpty
    · exact absurd (by simp [infer_outer_walls_from_windows, h1]) hne
    · by_cases h2 : (walls_above_windows d).isEmpty
      · refine ⟨by simpa [List.isEmpty_iff] using h1, ?_⟩
        intro w hwm hle
        have h2e : walls_above_windows d = [] := by
          simpa [List.isEmpty_iff] using h2
        unfold walls_above_windows at h2e
        have hnot := List.filter_eq_nil_iff.mp h2e (w.coordsD.y)
          (by unfold wall_y_positions; exact List.mem_map_of_mem _ hwm)
        simp at hnot
        exact absurd hle (not_le.mpr hnot)
      · exact absurd (by simp [infer_outer_walls_from_windows, h1, h2]) hne

/-- C4 witness: the zero-window dataset gives the empty result, and a
dataset whose wall y (0) is at or above its minimum window y (5) infers no
wall. -/
theorem infer_outer_walls_trigger_conditions_witness :
    infer_outer_walls_from_windows dwg_no_windows 0 = ([], []) ∧
    (infer_outer_walls_from_windows dwg_low_wall 800).1 = [] := by
  constructor
  · exact (infer_outer_walls_trigger_conditions dwg_no_windows 0).1 rfl
  · refine (infer_outer_walls_trigger_conditions dwg_low_wall 800).2.1 ?_
    refine ⟨{ name := "벽", coordinates := some ⟨0, 0, 100, 10⟩ }, ?_, ?_⟩
    · simp [dwg_low_wall]
    · simp [DwgItem.coordsD, min_window_y, window_coords_of, dwg_low_wall, listMin]

/-- C7: line-art rendering returns the empty result (modelled as `none`)
whenever the four item categories yield no coordinates at all or the
bounding box has zero width or zero height, instead of raising or producing
a drawing. -/
theorem generate_lineart_degenerate_empty (d : DwgData) (w h : ℕ)
    (hdeg : lineart_all_coords d = [] ∨ bbox_max_x d - bbox_min_x d = 0 ∨
      bbox_max_y d - bbox_min_y d = 0) :
    generate_lineart_from_dwg d w h = none := by
  unfold generate_lineart_from_dwg
  rcases hdeg with h1 | h2 | h3
  · simp [h1]
  · by_cases he : (lineart_all_coords d).isEmpty
    · simp [he]
    · simp [he, h2]
  · by_cases he : (lineart_all_coords d).isEmpty
    · simp [he]
    · simp [he, h3]

/-- C7 witness: the empty dataset and a single zero-area point both yield
the empty line-art result. -/
theorem generate_lineart_degenerate_empty_witness :
    generate_lineart_from_dwg dwg_empty 1024 768 = none ∧
    generate_lineart_from_dwg dwg_point 1024 768 = none := by
  constructor
  · exact generate_lineart_degenerate_empty dwg_empty 1024 768 (Or.inl rfl)
  · refine generate_lineart_degenerate_empty dwg_point 1024 768 (Or.inr (Or.inl ?_))
    simp [bbox_max_x, bbox_min_x, lineart_all_coords, dwg_point, listMin, listMax,
      List.filterMap_cons, List.filterMap_nil]

/-- C8: outer-wall inference is append-only — the element list produced by
`analyze_dwg_json` is exactly the normalized parsed elements followed by the
inferred walls, so the pre-inference list is an unchanged prefix of the
result. -/
theorem analyze_dwg_json_elements_append_only (parsed : List ParsedElem) (d : DwgData) :
    analyze_dwg_json_elements parsed d =
      dwg_base_elements parsed d ++ (infer_outer_walls_from_windows d (find_max_y d)).1 ∧
    (analyze_dwg_json_elements parsed d).take (dwg_base_elements parsed d).length =
      dwg_base_elements parsed d := by
  have h1 : analyze_dwg_json_elements parsed d =
      dwg_base_elements parsed d ++ (infer_outer_walls_from_windows d (find_max_y d)).1 := by
    by_cases hinf : (infer_outer_walls_from_windows d (find_max_y d)).1.isEmpty
    · have hi : (infer_outer_walls_from_windows d (find_max_y d)).1 = [] := by
        simpa [List.isEmpty_iff] using hinf
      simp [analyze_dwg_json_elements, hinf, hi]
    · simp [analyze_dwg_json_elements, hinf]
  exact ⟨h1, by rw [h1]; exact List.take_left _ _⟩

/-- C9: room classification assigns each label to at most one category — the
first of kitchen, living room, bedroom, bathroom, entrance whose keywords
match — and every category with member elements gets the arithmetic mean of
its members' (x, y) positions as centroid. -/
theorem room_classification_and_centroid :
    (∀ (l : String) (c : RoomCategory), classify_room l = some c →
      matches_category c l = true ∧
      ∀ c' : RoomCategory, category_rank c' < category_rank c →
        matches_category c' l = false) ∧
    (∀ (a : FloorPlanAnalysis) (c : RoomCategory),
      room_members a c ≠ [] →
      (∀ m ∈ room_members a c, m.pos.isSome = true) →
      ((extract_room_positions a).room_data c).center =
        some (((room_members a c).map member_x).sum / ((room_members a c).length : ℚ),
              ((room_members a c).map member_y).sum / ((room_members a c).length : ℚ))) := by
  constructor
  · intro l c hc
    unfold classify_room at hc
    split_ifs at hc with h1 h2 h3 h4 h5
    · cases hc
      refine ⟨h1, ?_⟩
      intro c' hlt
      cases c' <;> simp [category_rank] at hlt
    · cases hc
      refine ⟨h2, ?_⟩
      have h1f : matches_kitchen l = false := by simpa [Bool.not_eq_true] using h1
      intro c' hlt
      cases c' <;> simp [category_rank] at hlt <;> simp [matches_category, h1f]
    · cases hc
      refine ⟨h3, ?_⟩
      have h1f : matches_kitchen l = false := by simpa [Bool.not_eq_true] using h1
      have h2f : matches_living_room l = false := by simpa [Bool.not_eq_true] using h2
      intro c' hlt
      cases c' <;> simp [category_rank] at hlt <;> simp [matches_category, h1f, h2f]
    · cases hc
      refine ⟨h4, ?_⟩
      have h1f : matches_kitchen l = false := by simpa [Bool.not_eq_true] using h1
      have h2f : matches_living_room l = false := by simpa [Bool.not_eq_true] using h2
      have h3f : matches_bedroom l = false := by simpa [Bool.not_eq_true] using h3
      intro c' hlt
      cases c' <;> simp [category_rank] at hlt <;> simp [matches_category, h1f, h2f, h3f]
    · cases hc
      refine ⟨h5, ?_⟩
      have h1f : matches_kitchen l = false := by simpa [Bool.not_eq_true] using h1
      have h2f : matches_living_room l = false := by simpa [Bool.not_eq_true] using h2
      have h3f : matches_bedroom l = false := by simpa [Bool.not_eq_true] using h3
      have h4f : matches_bathroom l = false := by simpa [Bool.not_eq_true] using h4
      intro c' hlt
      cases c' <;> simp [category_rank] at hlt <;> simp [matches_category, h1f, h2f, h3f, h4f]
  · intro a c hne hpos
    have hx : (room_members a c).filterMap (fun m => m.pos.map (fun p => (p.x).getD 50)) =
        (room_members a c).map member_x :=
      filterMap_pos_sel Pos.x 50 (room_members a c) hpos
    have hy : (room_members a c).filterMap (fun m => m.pos.map (fun p => (p.y).getD 50)) =
        (room_members a c).map member_y :=
      filterMap_pos_sel Pos.y 50 (room_members a c) hpos
    have hmsE : (room_members a c).isEmpty = false := by
      simpa [List.isEmpty_iff] using hne
    have hcc : compute_center (room_members a c) =
        some (((room_members a c).map member_x).sum / ((room_members a c).length : ℚ),
              ((room_members a c).map member_y).sum / ((room_members a c).length : ℚ)) := by
      simp [compute_center, hmsE, hx, hy, List.isEmpty_iff, List.map_eq_nil_iff, hne,
        List.length_map]
    cases c <;>
      simp [RoomPositions.room_data, extract_room_positions, apply_default, room_data_of, hcc]

/-- C9 witness: a label matching both the kitchen and the bedroom keyword
sets counts for kitchen only, and the kitchen centroid of a concrete
two-element kitchen is the mean of the member positions. -/
theorem room_classification_and_centroid_witness :
    matches_category RoomCategory.kitchen "주방 침실 벽" = true ∧
    ((extract_room_positions two_kitchen_analysis).room_data RoomCategory.kitchen).center =
      some (((room_members two_kitchen_analysis RoomCategory.kitchen).map member_x).sum /
              ((room_members two_kitchen_analysis RoomCategory.kitchen).length : ℚ),
            ((room_members two_kitchen_analysis RoomCategory.kitchen).map member_y).sum /
              ((room_members two_kitchen_analysis RoomCategory.kitchen).length : ℚ)) :=
  ⟨(room_classification_and_centroid.1 "주방 침실 벽" RoomCategory.kitchen (by decide)).1,
   room_classification_and_centroid.2 two_kitchen_analysis RoomCategory.kitchen
     (by decide) (by decide)⟩

lemma kitchen_to_living_foreground (a : FloorPlanAnalysis) :
    "Kitchen counter and cabinets visible in the FOREGROUND at bottom of frame" ∈
      kitchen_to_living_parts a := by
  simp only [kitchen_to_living_parts]
  exact List.mem_append_left _
    (List.mem_cons_of_mem _ (List.mem_cons_of_mem _ (List.mem_cons_self _ _)))

lemma kitchen_to_living_background (a : FloorPlanAnalysis) :
    ("Large floor-to-ceiling window wall in the BACKGROUND spanning the far wall, one continuous window without pillars" ∈
      kitchen_to_living_parts a) ∨
    ("Windows visible in the BACKGROUND at the far wall" ∈ kitchen_to_living_parts a) := by
  simp only [kitchen_to_living_parts]
  cases hw : (extract_room_positions a).windows with
  | nil => exact absurd hw (extract_windows_ne_nil a)
  | cons mw rest =>
    by_cases hc : mw.is_continuous = true ∨ (mw :: rest).length = 1
    · left
      refine List.mem_append_left _ (List.mem_append_right _ ?_)
      show "Large floor-to-ceiling window wall in the BACKGROUND spanning the far wall, one continuous window without pillars" ∈
        (if mw.is_continuous = true ∨ (mw :: rest).length = 1 then
          ["Large floor-to-ceiling window wall in the BACKGROUND spanning the far wall, one continuous window without pillars"]
         else ["Windows visible in the BACKGROUND at the far wall"])
      rw [if_pos hc]
      exact List.mem_cons_self _ _
    · right
      refine List.mem_append_left _ (List.mem_append_right _ ?_)
      show "Windows visible in the BACKGROUND at the far wall" ∈
        (if mw.is_continuous = true ∨ (mw :: rest).length = 1 then
          ["Large floor-to-ceiling window wall in the BACKGROUND spanning the far wall, one continuous window without pillars"]
         else ["Windows visible in the BACKGROUND at the far wall"])
      rw [if_neg hc]
      exact List.mem_cons_self _ _

/-- C10: for every floor-plan analysis, the viewpoint text
"주방에서 거실 보는 시점" takes the kitchen-to-living branch of
`_generate_spatial_prompt`, whose output contains the FOREGROUND assertion
about the kitchen counter and a BACKGROUND assertion about the window wall
(the continuous window-wall sentence or the far-wall windows sentence),
whatever the room centroids were. -/
theorem spatial_prompt_kitchen_to_living (a : FloorPlanAnalysis) :
    strContains (generate_spatial_prompt a "주방에서 거실 보는 시점")
      "Kitchen counter and cabinets visible in the FOREGROUND at bottom of frame" = true ∧
    (strContains (generate_spatial_prompt a "주방에서 거실 보는 시점")
      "Large floor-to-ceiling window wall in the BACKGROUND spanning the far wall, one continuous window without pillars" = true ∨
     strContains (generate_spatial_prompt a "주방에서 거실 보는 시점")
      "Windows visible in the BACKGROUND at the far wall" = true) := by
  have hb : generate_spatial_prompt a "주방에서 거실 보는 시점" =
      py_join ". " (kitchen_to_living_parts a ++ ["Apartment has " ++ room_info_str a]) := rfl
  rw [hb]
  refine ⟨?_, ?_⟩
  · exact strContains_py_join_of_mem _ _ _
      (List.mem_append_left _ (kitchen_to_living_foreground a))
  · rcases kitchen_to_living_background a with h | h
    · exact Or.inl (strContains_py_join_of_mem _ _ _ (List.mem_append_left _ h))
    · exact Or.inr (strContains_py_join_of_mem _ _ _ (List.mem_append_left _ h))

end Interior
